import Mathlib

/-!
Verification of the Chatham financial report generator against its
specification.

The development shallowly embeds the three report pipelines of the
repository (`src/Reports/Debt_report.py`, `src/Reports/payment_report.py`,
`src/Reports/valuation_report.py`) together with the XML tree flattener
and the job-id helper (`src/Reports/queuing_report.py`).

Modelling conventions:
- HTTP interaction is modelled by "world" records that give, for each
  request the code can issue, the status code and (already parsed) body
  the external API would answer with; request sequences are functions
  from the attempt/offset index.
- Python exceptions are modelled with `Except String`: the body of each
  pipeline's `try:` block is a function returning `Except String …`, and
  the pipeline function itself performs the `except Exception` conversion.
- `.json()` / `ET.fromstring` parsing that can raise is modelled as an
  `Except String` field in the corresponding response record.
- Spreadsheet output is modelled by the list of rows the call to
  `to_excel` writes (`none` when no file is written).  Byte sizes and
  the `duration` stopwatch are not modelled (no claim mentions them).
- Python dictionaries built by `data[k] = v` / `data.update(…)` are
  modelled as association lists in insertion order, looked up with a
  "last binding wins" lookup (`dictGet`), which gives exactly the final
  value a Python dict holds for each key.
- `time.sleep` is modelled by accumulating the slept seconds.
-/

/-! ## XML trees and the tree flattener (`Debt_report.flatten_xml`) -/

/-- An XML element: a tag, optional text content, and child elements
(`xml.etree.ElementTree` view used by `Debt_report.py`). -/
inductive Xml where
  | node (tag : String) (text : Option String) (children : List Xml)
deriving Repr

def Xml.tag : Xml → String
  | .node t _ _ => t

def Xml.text : Xml → Option String
  | .node _ x _ => x

def Xml.children : Xml → List Xml
  | .node _ _ c => c

/-- Model of Python `s.split('}')` on the character list of `s`:
splits at every `'}'`, keeping empty pieces. -/
def splitBrace : List Char → List (List Char)
  | [] => [[]]
  | c :: cs =>
    match splitBrace cs with
    | s :: ss => if c = '}' then [] :: s :: ss else (c :: s) :: ss
    | [] => [[c]]

/-- `tag = child.tag.split('}')[1] if '}' in child.tag else child.tag`
(namespace stripping in `flatten_xml`). -/
def stripTag (tag : String) : String :=
  if '}' ∈ tag.data then ((splitBrace tag.data).getD 1 []).asString else tag

/-- The flat mapping produced by `flatten_xml`, as an association list in
insertion order; lookups take the last binding (Python dict update). -/
def Dict : Type := List (String × Option String)

/-- Python-dict lookup on the insertion-order association list: the
binding added last wins. -/
def dictGet : List (String × Option String) → String → Option (Option String)
  | [], _ => none
  | (k1, v) :: rest, k =>
    match dictGet rest k with
    | some r => some r
    | none => if k1 = k then some v else none

/-- `flatten_xml` applied to each child of an element, results merged in
document order (`data.update` / `data[tag] = child.text`): for a child
with children recurse, for a leaf child record its stripped tag and
text.  The Python `parent_tag` parameter is dead (never read) and is
dropped. -/
def flattenChildren : List Xml → List (String × Option String)
  | [] => []
  | Xml.node ctag ctext cchildren :: rest =>
    (if cchildren.isEmpty then [(stripTag ctag, ctext)]
     else flattenChildren cchildren) ++ flattenChildren rest

/-- `flatten_xml(element)`: iterate over the children of `element`
(the element's own tag and text are not used). -/
def flatten_xml : Xml → List (String × Option String)
  | Xml.node _ _ children => flattenChildren children

/-- The contribution of one child element to the merged mapping. -/
def childEntries : Xml → List (String × Option String)
  | Xml.node ctag ctext cchildren =>
    if cchildren.isEmpty then [(stripTag ctag, ctext)]
    else flattenChildren cchildren

theorem flattenChildren_cons (c : Xml) (rest : List Xml) :
    flattenChildren (c :: rest) = childEntries c ++ flattenChildren rest := by
  cases c with
  | node t x cs => simp [flattenChildren, childEntries]

theorem flattenChildren_append (as bs : List Xml) :
    flattenChildren (as ++ bs) = flattenChildren as ++ flattenChildren bs := by
  induction as with
  | nil => simp [flattenChildren]
  | cons hd tl ih =>
    cases hd with
    | node t x cs =>
      simp [flattenChildren, ih, List.append_assoc]

theorem dictGet_append (a b : List (String × Option String)) (k : String) :
    dictGet (a ++ b) k =
      match dictGet b k with
      | some r => some r
      | none => dictGet a k := by
  induction a with
  | nil => cases h : dictGet b k <;> simp [dictGet, h]
  | cons hd tl ih =>
    obtain ⟨k1, v⟩ := hd
    simp only [List.cons_append, dictGet, List.append_eq]
    rw [ih]
    cases h : dictGet b k <;> cases h2 : dictGet tl k <;> simp

theorem splitBrace_ne_nil (l : List Char) : splitBrace l ≠ [] := by
  cases l with
  | nil => simp [splitBrace]
  | cons c cs =>
    simp only [splitBrace]
    cases h : splitBrace cs with
    | nil => simp
    | cons s ss => by_cases hc : c = '}' <;> simp [hc]

theorem splitBrace_no_brace (l : List Char) (h : '}' ∉ l) : splitBrace l = [l] := by
  induction l with
  | nil => simp [splitBrace]
  | cons c cs ih =>
    have hc : c ≠ '}' := fun hc => h (hc ▸ List.mem_cons_self c cs)
    have hcs : '}' ∉ cs := fun hm => h (List.mem_cons_of_mem c hm)
    simp only [splitBrace, ih hcs]
    simp [hc]

theorem splitBrace_split (l rest : List Char) (h : '}' ∉ l) :
    splitBrace (l ++ '}' :: rest) = l :: splitBrace rest := by
  induction l with
  | nil =>
    simp only [List.nil_append, splitBrace]
    cases hs : splitBrace rest with
    | nil => exact absurd hs (splitBrace_ne_nil rest)
    | cons s ss => simp
  | cons c cs ih =>
    have hc : c ≠ '}' := fun hc => h (hc ▸ List.mem_cons_self c cs)
    have hcs : '}' ∉ cs := fun hm => h (List.mem_cons_of_mem c hm)
    simp only [List.cons_append, splitBrace, List.append_eq]
    rw [ih hcs]
    simp [hc]

/-! ## Claims about the tree flattener -/

/-- C4 (counterexample): the claim "for every namespace string ns,
flattening a leaf with tag `\x7bns\x7dFoo` produces the key `Foo`" is false
for a namespace string that itself contains `'\x7d'`: with `ns = "a\x7db"`,
`flatten_xml` takes `tag.split('\x7d')[1]`, i.e. the key `"b"`, not
`"Foo"`. -/
theorem flatten_namespace_strip_counterexample :
    flatten_xml (Xml.node "Report" none
      [Xml.node "\x7ba\x7db\x7dFoo" (some "1") []]) = [("b", some "1")] ∧
    ("b" : String) ≠ "Foo" := by
  constructor
  · have h1 : stripTag "\x7ba\x7db\x7dFoo" = "b" := by decide
    simp [flatten_xml, flattenChildren, h1]
  · decide

/-- C4 (amended): for every namespace string `ns` that does not contain
the character `'\x7d'`, flattening a leaf node whose tag is `"\x7bns\x7dFoo"`
produces the key `"Foo"` bound to the leaf's text. -/
theorem flatten_namespace_strip (ns : List Char) (t : Option String)
    (h : '}' ∉ ns) :
    flatten_xml (Xml.node "Report" none
      [Xml.node (String.mk ('{' :: ns ++ '}' :: "Foo".data)) t []])
      = [("Foo", t)] := by
  have h2 : '}' ∉ '{' :: ns := by
    intro hm
    rcases List.mem_cons.mp hm with h3 | h3
    · exact absurd h3 (by decide)
    · exact h h3
  have hmem : '}' ∈ (String.mk ('{' :: ns ++ '}' :: "Foo".data)).data := by
    simp
  have hsplit : splitBrace (('{' :: ns) ++ '}' :: "Foo".data)
      = ('{' :: ns) :: splitBrace "Foo".data := splitBrace_split ('{' :: ns) "Foo".data h2
  have hfoo : splitBrace "Foo".data = ["Foo".data] := by decide
  have hs : stripTag (String.mk ('{' :: ns ++ '}' :: "Foo".data)) = "Foo" := by
    unfold stripTag
    rw [if_pos hmem]
    show ((splitBrace (('{' :: ns) ++ '}' :: "Foo".data)).getD 1 []).asString = "Foo"
    rw [hsplit, hfoo]
    rfl
  have key : ∀ tg : String, stripTag tg = "Foo" →
      flatten_xml (Xml.node "Report" none [Xml.node tg t []]) = [("Foo", t)] := by
    intro tg htg
    simp [flatten_xml, flattenChildren, htg]
  exact key (String.mk ('{' :: ns ++ '}' :: "Foo".data)) hs

/-- C4 (witness): instance of the amended theorem at `ns = "a"`,
`t = some "1"`. -/
theorem flatten_namespace_strip_witness :
    flatten_xml (Xml.node "Report" none
      [Xml.node (String.mk ('{' :: ['a'] ++ '}' :: "Foo".data)) (some "1") []])
      = [("Foo", some "1")] :=
  flatten_namespace_strip ['a'] (some "1") (by decide)

/-- C6: last write wins on key collision.  For a tree whose children are
`cs ++ c :: ds`, if the subtree `c` produces a field `k` and no subtree
after it does, the flattened mapping holds `c`'s value for `k` — i.e.
the value of the subtree visited last in document order. -/
theorem flatten_last_write_wins (tag : String) (txt : Option String)
    (cs : List Xml) (c : Xml) (ds : List Xml) (k : String)
    (h1 : dictGet (childEntries c) k ≠ none)
    (h2 : dictGet (flattenChildren ds) k = none) :
    dictGet (flatten_xml (Xml.node tag txt (cs ++ c :: ds))) k
      = dictGet (childEntries c) k := by
  have hsplit : flatten_xml (Xml.node tag txt (cs ++ c :: ds))
      = flattenChildren cs ++ (childEntries c ++ flattenChildren ds) := by
    simp [flatten_xml, flattenChildren_append, flattenChildren_cons]
  rw [hsplit, dictGet_append, dictGet_append, h2]
  cases hc : dictGet (childEntries c) k with
  | none => exact absurd hc h1
  | some r => simp

/-- C6 (witness): two leaf children both named `A`; the flattened value
at `A` is the second (last visited) child's text `"2"`. -/
theorem flatten_last_write_wins_witness :
    dictGet (flatten_xml (Xml.node "Root" none
      [Xml.node "A" (some "1") [], Xml.node "A" (some "2") []])) "A"
      = some (some "2") := by
  have h := flatten_last_write_wins "Root" none
    [Xml.node "A" (some "1") []] (Xml.node "A" (some "2") []) [] "A"
    (by decide) (by simp [flattenChildren, dictGet])
  exact h.trans (by decide)

/-- C7: flattening is the identity tabularization on already-flat input:
for a tree all of whose children are leaves, the flattened mapping is
exactly the association of each child's (namespace-stripped) tag to its
text, in document order. -/
theorem flatten_idempotent_on_flat (tag : String) (txt : Option String)
    (cs : List Xml) (h : ∀ c ∈ cs, c.children = []) :
    flatten_xml (Xml.node tag txt cs)
      = cs.map (fun c => (stripTag c.tag, c.text)) := by
  simp only [flatten_xml]
  induction cs with
  | nil => simp [flattenChildren]
  | cons hd tl ih =>
    have hhd : hd.children = [] := h hd (List.mem_cons_self hd tl)
    have htl : ∀ c ∈ tl, c.children = [] := fun c hc => h c (List.mem_cons_of_mem hd hc)
    cases hd with
    | node t x cc =>
      simp only [Xml.children] at hhd
      subst hhd
      simp [flattenChildren, ih htl, Xml.tag, Xml.text]

/-- C7 (witness): instance at a two-leaf tree. -/
theorem flatten_idempotent_on_flat_witness :
    flatten_xml (Xml.node "Loan" none
      [Xml.node "Amount" (some "1000") [], Xml.node "Currency" (some "USD") []])
      = [("Amount", some "1000"), ("Currency", some "USD")] := by
  have h := flatten_idempotent_on_flat "Loan" none
    [Xml.node "Amount" (some "1000") [], Xml.node "Currency" (some "USD") []]
    (by intro c hc; simp [List.mem_cons] at hc; rcases hc with rfl | rfl <;> rfl)
  rw [h]
  decide

/-! ## Shared result contract -/

/-- The result dictionary each pipeline returns: `success`, `error`,
`file_path`, `records`.  The `file_size` and `duration` entries are not
modelled (no claim mentions them). -/
structure ReportResult where
  success : Bool
  error : Option String
  file_path : Option String
  records : Option Nat
deriving Repr, DecidableEq

/-! ## Payment report (Protocol B, `payment_report.py`) -/

/-- One page response of the paginated payments GET: HTTP status and,
on a parsed page, the `"Items"` list (`none` = key absent). -/
structure PageResp (α : Type) where
  status : Nat
  items : Option (List α)

/-- The `"Paging"` object of the initial response; `totalRecords = none`
models an absent `"TotalRecords"` key (read with `.get("TotalRecords", 0)`). -/
structure Paging where
  totalRecords : Option Nat
deriving Repr, DecidableEq

/-- Parsed JSON of the initial report GET: optional `"Items"` and
optional `"Paging"`. -/
structure PaymentData (α : Type) where
  items : Option (List α)
  paging : Option Paging

/-- The world a payment-report run interacts with: template PUT status,
initial report GET status, the parse outcome of the initial response's
JSON, the page the endpoint serves for each requested `offset`, and the
`datetime.now()` timestamp. -/
structure PWorld (α : Type) where
  templateStatus : Nat
  initStatus : Nat
  initBody : Except String (PaymentData α)
  pages : Nat → PageResp α
  now : Nat

/-- The pagination `while len(all_items) < total_records` loop: request
the page at `offset = len(all_items)`; on 200 with a non-empty `"Items"`
list extend and continue, otherwise break.  Returns the accumulated
items and the number of page GETs issued.  The loop adds at least one
item per iteration while `acc.length < totalRecords`, so `fuel =
totalRecords` (the value `generate_payment_report` passes) always
suffices: at `fuel = 0` the guard is already false. -/
def paginateLoop {α : Type} (pages : Nat → PageResp α) (totalRecords : Nat) :
    Nat → List α → List α × Nat
  | 0, acc => (acc, 0)
  | fuel + 1, acc =>
    if acc.length < totalRecords then
      let resp := pages acc.length
      if resp.status = 200 then
        match resp.items with
        | some pageItems =>
          if pageItems.isEmpty then (acc, 1)
          else
            let (res, n) := paginateLoop pages totalRecords fuel (acc ++ pageItems)
            (res, n + 1)
        | none => (acc, 1)
      else (acc, 1)
    else (acc, 0)

/-- Accumulation of `all_items` from the initial response: first page's
`"Items"` if present, then the pagination loop if `"Paging"` is present.
Also returns the number of page GETs issued by the loop. -/
def paymentCollect {α : Type} (d : PaymentData α) (pages : Nat → PageResp α) :
    List α × Nat :=
  match d.items with
  | none => ([], 0)
  | some l =>
    match d.paging with
    | none => (l, 0)
    | some pg =>
      paginateLoop pages (pg.totalRecords.getD 0) (pg.totalRecords.getD 0) l

/-- One row of the written payment spreadsheet: the `RunDate` column
plus either a data item or the `"Message"` marker column. -/
structure PRow (α : Type) where
  runDate : Nat
  item : Option α
  message : Option String
deriving Repr, DecidableEq

/-- Step 3 of `generate_payment_report`: the rows written to Excel —
all items with a `RunDate` column, or the single
`(RunDate, "No data found")` marker row when there are none. -/
def paymentExport {α : Type} (now : Nat) (items : List α) : List (PRow α) :=
  if items.isEmpty then [⟨now, none, some "No data found"⟩]
  else items.map (fun i => ⟨now, some i, none⟩)

def paymentPath : String := "Generated Files/Payment_Report.xlsx"

/-- The `try:` body of `generate_payment_report`: the `Except` layer is
the Python exception channel, the `Nat` counts the report-page GETs
issued.  On the OK path it returns the result dictionary, the rows
written and the accumulated `all_items`. -/
def paymentAttempt {α : Type} (w : PWorld α) :
    Except String (ReportResult × Option (List (PRow α)) × List α) × Nat :=
  if w.templateStatus ≠ 200 then
    (.ok (⟨false,
        some ("Failed to create/update payment template. Status: "
          ++ toString w.templateStatus), none, none⟩, none, []), 0)
  else if w.initStatus ≠ 200 then
    (.ok (⟨false,
        some ("Failed to generate payment report. Status: "
          ++ toString w.initStatus), none, none⟩, none, []), 1)
  else
    match w.initBody with
    | .error e => (.error e, 1)
    | .ok d =>
      let (allItems, loopReqs) := paymentCollect d w.pages
      let rows := paymentExport w.now allItems
      (.ok (⟨true, none, some paymentPath, some rows.length⟩, some rows, allItems),
        1 + loopReqs)

/-- Observable outcome of one payment-report run: result dictionary,
rows written to the spreadsheet (`none` = no file), accumulated items,
and the total number of report-page GETs issued. -/
structure PRun (α : Type) where
  result : ReportResult
  written : Option (List (PRow α))
  collected : List α
  pageRequests : Nat

/-- `generate_payment_report`: run the body and convert any exception
into `{success: False, error: str(e), file_path: None}`. -/
def generate_payment_report {α : Type} (w : PWorld α) : PRun α :=
  match paymentAttempt w with
  | (.ok (r, wr, col), reqs) => ⟨r, wr, col, reqs⟩
  | (.error e, reqs) => ⟨⟨false, some e, none, none⟩, none, [], reqs⟩

/-- The pagination loop only ever appends to the accumulator. -/
theorem paginateLoop_extends {α : Type} (pages : Nat → PageResp α) (tot : Nat) :
    ∀ (fuel : Nat) (acc : List α),
      ∃ ext, (paginateLoop pages tot fuel acc).1 = acc ++ ext := by
  intro fuel
  induction fuel with
  | zero => intro acc; exact ⟨[], by simp [paginateLoop]⟩
  | succ fuel ih =>
    intro acc
    by_cases h1 : acc.length < tot
    · by_cases h2 : (pages acc.length).status = 200
      · cases hit : (pages acc.length).items with
        | none => exact ⟨[], by simp [paginateLoop, h1, h2, hit]⟩
        | some pageItems =>
          by_cases h3 : pageItems.isEmpty
          · exact ⟨[], by simp [paginateLoop, h1, h2, hit, h3]⟩
          · obtain ⟨ext, hext⟩ := ih (acc ++ pageItems)
            refine ⟨pageItems ++ ext, ?_⟩
            simp [paginateLoop, h1, h2, hit, h3]
            cases hrec : paginateLoop pages tot fuel (acc ++ pageItems) with
            | mk res n =>
              rw [hrec] at hext
              simp at hext
              simp [hext, List.append_assoc]
      · exact ⟨[], by simp [paginateLoop, h1, h2]⟩
    · exact ⟨[], by simp [paginateLoop, h1]⟩

/-- Against an endpoint serving 100-item offset-slices of a fixed list
`L` with `TotalRecords = L.length`, the loop started at `L.take off`
collects exactly `L` and issues `ceil((L.length - off)/100)` page GETs. -/
theorem paginateLoop_slices {α : Type} (L : List α) :
    ∀ (fuel off : Nat), off ≤ L.length → L.length - off ≤ fuel →
      paginateLoop (fun o => ⟨200, some ((L.drop o).take 100)⟩)
          L.length fuel (L.take off)
        = (L, (L.length - off + 99) / 100) := by
  intro fuel
  induction fuel with
  | zero =>
    intro off h1 h2
    have hoff : off = L.length := by omega
    subst hoff
    have h99 : (L.length - L.length + 99) / 100 = 0 := by omega
    simp [paginateLoop, List.take_length, h99]
  | succ fuel ih =>
    intro off h1 h2
    by_cases hlt : off < L.length
    · have hlen : (L.take off).length = off := by
        simp [List.length_take]; omega
      have hplen : ((L.drop off).take 100).length = min 100 (L.length - off) := by
        simp [List.length_take, List.length_drop]
      have hpne : ((L.drop off).take 100).isEmpty = false := by
        cases hE : (L.drop off).take 100 with
        | nil =>
          have := congrArg List.length hE
          rw [hplen] at this
          simp at this
          omega
        | cons a as => rfl
      have htake2 : L.take off ++ (L.drop off).take 100
          = L.take (min (off + 100) L.length) := by
        rw [← List.take_add, List.take_eq_take]
        omega
      have hrec := ih (min (off + 100) L.length) (by omega) (by omega)
      simp only [paginateLoop, hlen, hlt, if_true, hpne, Bool.false_eq_true,
        if_false, htake2]
      rw [hrec]
      have : (L.length - min (off + 100) L.length + 99) / 100 + 1
          = (L.length - off + 99) / 100 := by omega
      simp [this]
    · have hoff : off = L.length := by omega
      subst hoff
      have h99 : (L.length - L.length + 99) / 100 = 0 := by omega
      simp [paginateLoop, List.take_length, h99]

/-- A consistent mock endpoint: serves the slice of `L` starting at the
requested offset, at most 100 items per page. -/
def slicePages {α : Type} (L : List α) : Nat → PageResp α :=
  fun off => ⟨200, some ((L.drop off).take 100)⟩

/-- The payment world whose endpoint reports `TotalRecords = L.length`
and serves offset-slices of `L` (the first page being `L.take 100`). -/
def sliceWorld {α : Type} (L : List α) : PWorld α :=
  ⟨200, 200, .ok ⟨some (L.take 100), some ⟨some L.length⟩⟩, slicePages L, 0⟩

/-- C1 (amended): against any endpoint reporting `TotalRecords = N` and
serving 100-item offset-slices of a fixed `N`-record dataset, the client
accumulates exactly the `N` dataset records and issues
`max 1 (ceil(N/100))` page requests in total (the initial GET is always
issued, even for `N = 0`). -/
theorem payment_pagination_slices {α : Type} (L : List α) :
    (generate_payment_report (sliceWorld L)).collected = L ∧
    (generate_payment_report (sliceWorld L)).pageRequests
      = max 1 ((L.length + 99) / 100) := by
  have htake : (L.take 100 : List α) = L.take (min 100 L.length) := by
    rw [List.take_eq_take]
    omega
  have hcol : paymentCollect
      (⟨some (L.take 100), some ⟨some L.length⟩⟩ : PaymentData α) (slicePages L)
      = (L, (L.length - min 100 L.length + 99) / 100) := by
    show paginateLoop (slicePages L) L.length L.length (L.take 100) = _
    rw [htake]
    exact paginateLoop_slices L L.length (min 100 L.length) (by omega) (by omega)
  constructor
  · simp [generate_payment_report, paymentAttempt, sliceWorld, hcol]
  · simp [generate_payment_report, paymentAttempt, sliceWorld, hcol]
    omega

/-- An inconsistent endpoint: reports `TotalRecords = 150` but serves a
full 100-item page at every offset. -/
def overservingWorld : PWorld Unit :=
  ⟨200, 200, .ok ⟨some (List.replicate 100 ()), some ⟨some 150⟩⟩,
    fun _ => ⟨200, some (List.replicate 100 ())⟩, 0⟩

/-- C1 (counterexample): an endpoint reporting `TotalRecords = 150` that
serves pages of at most 100 items (here: always a full 100-item page)
makes the client accumulate 200 records over 2 page requests; the number
of items served is 200, so the claimed count `min(150, 200) = 150`
differs from the 200 records actually accumulated (the client keeps the
whole last page and overshoots the reported total). -/
theorem payment_pagination_counterexample :
    (generate_payment_report overservingWorld).collected.length = 200 ∧
    (generate_payment_report overservingWorld).pageRequests = 2 ∧
    min 150 (100 + 100) = 150 ∧ (200 : Nat) ≠ 150 := by
  refine ⟨by decide, by decide, by decide, by decide⟩

/-- C8: pagination partial failure is swallowed.  A page fetch with a
non-200 status stops the accumulation loop right there (returning the
accumulator unchanged after that one request), and whenever the template
PUT and initial GET succeeded with a non-empty first page, the pipeline
still succeeds: the collected records are exported as the written rows
and counted in `records`, regardless of page failures. -/
theorem payment_partial_page_failure {α : Type} (w : PWorld α) (d : PaymentData α)
    (l : List α) (pg : Paging)
    (hT : w.templateStatus = 200) (hI : w.initStatus = 200)
    (hB : w.initBody = .ok d) (hit : d.items = some l) (hpg : d.paging = some pg)
    (hne : l ≠ []) :
    (∀ (fuel : Nat) (acc : List α), acc.length < pg.totalRecords.getD 0 →
        (w.pages acc.length).status ≠ 200 →
        paginateLoop w.pages (pg.totalRecords.getD 0) (fuel + 1) acc = (acc, 1)) ∧
    (generate_payment_report w).result.success = true ∧
    (generate_payment_report w).written
      = some ((paymentCollect d w.pages).1.map (fun i => ⟨w.now, some i, none⟩)) ∧
    (generate_payment_report w).result.records
      = some (paymentCollect d w.pages).1.length := by
  refine ⟨?_, ?_⟩
  · intro fuel acc h1 h2
    simp [paginateLoop, h1, h2]
  · obtain ⟨ext, hext⟩ :=
      paginateLoop_extends w.pages (pg.totalRecords.getD 0) (pg.totalRecords.getD 0) l
    cases hPC : paymentCollect d w.pages with
    | mk a n =>
      have ha : a = l ++ ext := by
        have : paymentCollect d w.pages
            = paginateLoop w.pages (pg.totalRecords.getD 0) (pg.totalRecords.getD 0) l := by
          simp [paymentCollect, hit, hpg]
        rw [this] at hPC
        rw [hPC] at hext
        exact hext
      have hane : a.isEmpty = false := by
        rw [ha]
        cases l with
        | nil => exact absurd rfl hne
        | cons x xs => rfl
      simp [generate_payment_report, paymentAttempt, hT, hI, hB, hPC,
        paymentExport, hane]

/-- Concrete world for the C8 witness: first page `[7]`, reported total
5, and the page fetch at offset 1 answers status 500. -/
def paymentFailWorld : PWorld Nat :=
  ⟨200, 200, .ok ⟨some [7], some ⟨some 5⟩⟩,
    fun o => if o = 1 then ⟨500, none⟩ else ⟨200, some []⟩, 3⟩

/-- C8 (witness): in `paymentFailWorld` the page fetch at offset 1 fails
with 500, yet the run succeeds, exports the one collected record and
reports `records = 1`. -/
theorem payment_partial_page_failure_witness :
    (generate_payment_report paymentFailWorld).result.success = true ∧
    (generate_payment_report paymentFailWorld).written = some [⟨3, some 7, none⟩] ∧
    (generate_payment_report paymentFailWorld).result.records = some 1 := by
  have h := payment_partial_page_failure paymentFailWorld
    ⟨some [7], some ⟨some 5⟩⟩ [7] ⟨some 5⟩ rfl rfl rfl rfl rfl (by decide)
  refine ⟨h.2.1, ?_, ?_⟩
  · rw [h.2.2.1]
    decide
  · rw [h.2.2.2]
    decide

/-- C10 (implicit): when the payment report retrieves zero items, the
pipeline still succeeds and reports `records = 1`: the single
`(RunDate, "No data found")` marker row written for the empty case is
itself counted by `len(df)`. -/
theorem payment_zero_items_counts_marker_row {α : Type} (w : PWorld α)
    (d : PaymentData α)
    (hT : w.templateStatus = 200) (hI : w.initStatus = 200)
    (hB : w.initBody = .ok d)
    (hz : (paymentCollect d w.pages).1 = []) :
    (generate_payment_report w).result.success = true ∧
    (generate_payment_report w).result.records = some 1 ∧
    (generate_payment_report w).written
      = some [⟨w.now, none, some "No data found"⟩] := by
  cases hPC : paymentCollect d w.pages with
  | mk a n =>
    have ha : a = [] := by rw [hPC] at hz; exact hz
    subst ha
    simp [generate_payment_report, paymentAttempt, hT, hI, hB, hPC, paymentExport]

/-- Concrete world for the C10 witness: the initial response has no
`"Items"` key at all. -/
def paymentEmptyWorld : PWorld Nat :=
  ⟨200, 200, .ok ⟨none, none⟩, fun _ => ⟨200, none⟩, 9⟩

/-- C10 (witness): in `paymentEmptyWorld` the run succeeds with
`records = 1` and the single marker row written. -/
theorem payment_zero_items_counts_marker_row_witness :
    (generate_payment_report paymentEmptyWorld).result.success = true ∧
    (generate_payment_report paymentEmptyWorld).result.records = some 1 ∧
    (generate_payment_report paymentEmptyWorld).written
      = some [⟨9, none, some "No data found"⟩] :=
  payment_zero_items_counts_marker_row paymentEmptyWorld ⟨none, none⟩
    rfl rfl rfl (by decide)

/-! ## Debt report (Protocol A, `queuing_report.py` + `Debt_report.py`) -/

/-- Response to one GET of `/report/\x7bjob_id\x7d`: HTTP status and the
outcome of `ET.fromstring(response.text)` (parsing can raise). -/
structure DResp where
  status : Nat
  parsed : Except String Xml

/-- The world a debt-report run interacts with: the portfolio-submit
POST status and the `JobId` field of its JSON (`none` = absent), the
response for each report-GET attempt, and the timestamp. -/
structure DWorld where
  submitStatus : Nat
  submitJobId : Option String
  responses : Nat → DResp
  now : Nat

/-- `queuing_report.jobid()`: POST the portfolio query; on 200 return
the `JobId` field of the JSON (or `None` when absent), on any other
status return `None`. -/
def jobid (w : DWorld) : Option String :=
  if w.submitStatus = 200 then w.submitJobId else none

/-- The `while retries < max_retries and not success` retry loop, with
`fuel = max_retries - retries`: GET attempt by attempt; the first 200
ends the loop with its parse outcome; each non-200 sleeps 30 seconds
and retries.  Returns (parse outcome of the first 200 if any, number of
GET attempts issued, total seconds slept). -/
def debtLoop (responses : Nat → DResp) :
    Nat → Nat → Option (Except String Xml) × Nat × Nat
  | _, 0 => (none, 0, 0)
  | attempt, fuel + 1 =>
    let resp := responses attempt
    if resp.status = 200 then (some resp.parsed, 1, 0)
    else
      let (r, a, s) := debtLoop responses (attempt + 1) fuel
      (r, a + 1, s + 30)

/-- All proper descendants of the given elements, in document order. -/
def descendantsList : List Xml → List Xml
  | [] => []
  | Xml.node t x cs :: rest =>
    Xml.node t x cs :: (descendantsList cs ++ descendantsList rest)

def chathamNs : String := "http://schemas.datacontract.org/2009/11/Chatham.FMS.Data"

def clarkInstruments : String := "\x7b" ++ chathamNs ++ "\x7dInstruments"

def clarkLoan : String := "\x7b" ++ chathamNs ++ "\x7dLoan"

/-- `root.findall('.//ns:Instruments/ns:Loan', namespaces)`: the
namespace-qualified `Loan` children of every `Instruments` descendant
of the root, in document order. -/
def findLoans (root : Xml) : List Xml :=
  (((descendantsList root.children).filter
      (fun e => e.tag == clarkInstruments)).map
    (fun e => e.children.filter (fun c => c.tag == clarkLoan))).flatten

def debtPath : String := "./Generated Files/Debt_Report.xlsx"

/-- One row of the written debt spreadsheet: the `RunDate` column
followed by the flattened loan fields. -/
def DebtRow : Type := List (String × Option String)

/-- The `try:` body of `generate_debt_report`: jobid check, retry loop,
then XML parse / flatten / export on the first 200.  The `Except` layer
is the Python exception channel; the two `Nat`s are GET attempts issued
and seconds slept. -/
def debtAttempt (w : DWorld) :
    Except String (ReportResult × Option (List DebtRow)) × Nat × Nat :=
  match jobid w with
  | none => (.ok (⟨false, some "Failed to retrieve jobid", none, none⟩, none), 0, 0)
  | some jid =>
    if jid = "" then
      (.ok (⟨false, some "Failed to retrieve jobid", none, none⟩, none), 0, 0)
    else
      match debtLoop w.responses 0 5 with
      | (none, att, slp) =>
        (.ok (⟨false, some "Failed to retrieve data after multiple attempts",
          none, none⟩, none), att, slp)
      | (some (.error e), att, slp) => (.error e, att, slp)
      | (some (.ok root), att, slp) =>
        let rows := (findLoans root).map flatten_xml
        let written := rows.map (fun r => ("RunDate", some (toString w.now)) :: r)
        (.ok (⟨true, none, some debtPath, some rows.length⟩, some written),
          att, slp)

/-- Observable outcome of one debt-report run. -/
structure DRun where
  result : ReportResult
  written : Option (List DebtRow)
  attempts : Nat
  sleepSeconds : Nat

/-- `generate_debt_report`: run the body and convert any exception into
`{success: False, error: str(e), file_path: None}`. -/
def generate_debt_report (w : DWorld) : DRun :=
  match debtAttempt w with
  | (.ok (r, wr), att, slp) => ⟨r, wr, att, slp⟩
  | (.error e, att, slp) => ⟨⟨false, some e, none, none⟩, none, att, slp⟩

/-- C2: when every report GET answers a non-200 status, the debt
pipeline issues exactly 5 GET attempts, sleeps 30 seconds after each of
the 5 failures (150 seconds total), returns `success = false` with the
retrieval-exhausted error, and writes no output file. -/
theorem debt_retry_exhaustion (w : DWorld) (jid : String)
    (hj : jobid w = some jid) (hne : jid ≠ "")
    (hfail : ∀ k, k < 5 → (w.responses k).status ≠ 200) :
    generate_debt_report w
      = ⟨⟨false, some "Failed to retrieve data after multiple attempts",
          none, none⟩, none, 5, 150⟩ := by
  have h0 : ¬((w.responses 0).status = 200) := hfail 0 (by omega)
  have h1 : ¬((w.responses 1).status = 200) := hfail 1 (by omega)
  have h2 : ¬((w.responses 2).status = 200) := hfail 2 (by omega)
  have h3 : ¬((w.responses 3).status = 200) := hfail 3 (by omega)
  have h4 : ¬((w.responses 4).status = 200) := hfail 4 (by omega)
  have hloop : debtLoop w.responses 0 5 = (none, 5, 150) := by
    simp [debtLoop, h0, h1, h2, h3, h4]
  simp [generate_debt_report, debtAttempt, hj, hne, hloop]

/-- Concrete world for the C2 witness: job id available, every GET
answers 500. -/
def debtFailWorld : DWorld :=
  ⟨200, some "J-1", fun _ => ⟨500, .error "unreached"⟩, 0⟩

/-- C2 (witness): in `debtFailWorld` the run makes 5 attempts, sleeps
150 seconds, fails with the retrieval-exhausted error and writes
nothing. -/
theorem debt_retry_exhaustion_witness :
    generate_debt_report debtFailWorld
      = ⟨⟨false, some "Failed to retrieve data after multiple attempts",
          none, none⟩, none, 5, 150⟩ :=
  debt_retry_exhaustion debtFailWorld "J-1" rfl (by decide)
    (fun k hk => by show (500 : Nat) ≠ 200; decide)

/-! ## Valuation report (Protocol C, `valuation_report.py`) -/

/-- JSON payload of the transactions GET / the poll GET: optional
`JobId` and optional `"Items"` list. -/
structure VJson (α : Type) where
  jobId : Option String
  items : Option (List α)
deriving Repr, DecidableEq

/-- One response of the job-status poll: HTTP status, raw text (used in
the `Unexpected status` message) and the parsed JSON body. -/
structure PollResp (α : Type) where
  status : Nat
  text : String
  body : VJson α

/-- The world a valuation-report run interacts with: template PUT
status, transactions GET status/text/JSON, the poll responses by
attempt index, and the timestamp. -/
structure VWorld (α : Type) where
  templateStatus : Nat
  reportStatus : Nat
  reportText : String
  reportBody : VJson α
  pollResponses : Nat → PollResp α
  now : Nat

/-- `get_transaction_report`: on 200 return the job id when `JobId` is
present and truthy (Python: the empty string is falsy), otherwise the
inline JSON; on any other status raise. -/
def get_transaction_report {α : Type} (w : VWorld α) :
    Except String (Sum String (VJson α)) :=
  if w.reportStatus = 200 then
    match w.reportBody.jobId with
    | some j => if j = "" then .ok (.inr w.reportBody) else .ok (.inl j)
    | none => .ok (.inr w.reportBody)
  else
    .error ("Failed to start report job. Status " ++ toString w.reportStatus
      ++ ": " ++ w.reportText)

/-- The `for _ in range(retries)` loop of `poll_report_status`, with
`fuel` = remaining iterations and `i` = attempt index: 200 returns the
parsed body, 202 sleeps `delay = 5` seconds and continues, any other
status raises; an exhausted loop raises `TimeoutError`.  Returns
(outcome, GET attempts issued, seconds slept). -/
def pollLoop {α : Type} (responses : Nat → PollResp α) :
    Nat → Nat → Except String (VJson α) × Nat × Nat
  | _, 0 => (.error "Report generation timed out.", 0, 0)
  | i, fuel + 1 =>
    let resp := responses i
    if resp.status = 200 then (.ok resp.body, 1, 0)
    else if resp.status = 202 then
      let (r, a, s) := pollLoop responses (i + 1) fuel
      (r, a + 1, s + 5)
    else
      (.error ("Unexpected status: " ++ toString resp.status ++ ", " ++ resp.text),
        1, 0)

/-- `poll_report_status(job_id)` with its default `retries=30`,
`delay=5`. -/
def poll_report_status {α : Type} (responses : Nat → PollResp α) :
    Except String (VJson α) × Nat × Nat :=
  pollLoop responses 0 30

def valuationPath : String := "Generated Files/Valuation_Report.xlsx"

/-- One row of the written valuation spreadsheet: `RunDate` plus one
item. -/
structure VRow (α : Type) where
  runDate : Nat
  item : α
deriving Repr, DecidableEq

/-- `export_to_excel(data, filename)`: take `data.get("Items", [])`; if
that is empty, write nothing and return `(None, 0)`; otherwise write all
items with a `RunDate` column and return the path and the row count.
Components: rows written (`none` = no file), returned path, returned
count. -/
def export_to_excel {α : Type} (now : Nat) (data : VJson α) :
    Option (List (VRow α)) × Option String × Nat :=
  match data.items with
  | some (x :: xs) =>
    (some ((x :: xs).map (fun i => ⟨now, i⟩)), some valuationPath,
      (x :: xs).length)
  | _ => (none, none, 0)

/-- Steps 3–4 of `generate_valuation_report` after the report data is in
hand: export, then succeed if a file path came back, else return the
file-not-created failure (a normal return, not an exception). -/
def valuationFinish {α : Type} (now : Nat) (data : VJson α) :
    Except String (ReportResult × Option (List (VRow α))) :=
  match export_to_excel now data with
  | (some rows, some path, count) =>
    .ok (⟨true, none, some path, some count⟩, some rows)
  | (_, _, _) =>
    .ok (⟨false, some "Report file was not created or contains no data",
      none, none⟩, none)

/-- The `try:` body of `generate_valuation_report`: template check,
transaction-report request, poll when a job id came back, then export.
The `Except` layer is the Python exception channel; the two `Nat`s are
poll GET attempts issued and seconds slept. -/
def valuationAttempt {α : Type} (w : VWorld α) :
    Except String (ReportResult × Option (List (VRow α))) × Nat × Nat :=
  if w.templateStatus ≠ 200 then
    (.ok (⟨false, some "Template creation failed", none, none⟩, none), 0, 0)
  else
    match get_transaction_report w with
    | .error e => (.error e, 0, 0)
    | .ok (.inl _) =>
      let (res, att, slp) := poll_report_status w.pollResponses
      match res with
      | .error e => (.error e, att, slp)
      | .ok data => (valuationFinish w.now data, att, slp)
    | .ok (.inr data) => (valuationFinish w.now data, 0, 0)

/-- Observable outcome of one valuation-report run. -/
structure VRun (α : Type) where
  result : ReportResult
  written : Option (List (VRow α))
  attempts : Nat
  sleepSeconds : Nat

/-- `generate_valuation_report`: run the body and convert any exception
into `{success: False, error: str(e), file_path: None}`. -/
def generate_valuation_report {α : Type} (w : VWorld α) : VRun α :=
  match valuationAttempt w with
  | (.ok (r, wr), att, slp) => ⟨r, wr, att, slp⟩
  | (.error e, att, slp) => ⟨⟨false, some e, none, none⟩, none, att, slp⟩

/-- If the first `k` responses from index `i` are 202 and response
`i + k` is 200 within the budget, the loop returns that body after
`k + 1` attempts and `5 k` seconds slept. -/
theorem pollLoop_success {α : Type} (rs : Nat → PollResp α) :
    ∀ (k i fuel : Nat), k < fuel →
      (∀ j, j < k → (rs (i + j)).status = 202) →
      (rs (i + k)).status = 200 →
      pollLoop rs i fuel = (.ok (rs (i + k)).body, k + 1, 5 * k) := by
  intro k
  induction k with
  | zero =>
    intro i fuel hk hpre h200
    cases fuel with
    | zero => omega
    | succ fuel =>
      rw [Nat.add_zero] at h200
      simp [pollLoop, h200]
  | succ k ih =>
    intro i fuel hk hpre h200
    cases fuel with
    | zero => omega
    | succ fuel =>
      have h202 : (rs i).status = 202 := by
        have := hpre 0 (by omega)
        rwa [Nat.add_zero] at this
      have hne : ¬((rs i).status = 200) := by rw [h202]; decide
      have hpre2 : ∀ j, j < k → (rs (i + 1 + j)).status = 202 := by
        intro j hj
        have := hpre (j + 1) (by omega)
        have hidx : i + (j + 1) = i + 1 + j := by omega
        rwa [hidx] at this
      have h2002 : (rs (i + 1 + k)).status = 200 := by
        have hidx : i + (k + 1) = i + 1 + k := by omega
        rwa [hidx] at h200
      have hrec := ih (i + 1) fuel (by omega) hpre2 h2002
      have hidx2 : i + 1 + k = i + (k + 1) := by omega
      rw [hidx2] at hrec
      simp [pollLoop, hne, h202, hrec]
      omega

/-- If the first `k` responses from index `i` are 202 and response
`i + k` is neither 200 nor 202 within the budget, the loop raises the
`Unexpected status` error at attempt `k + 1`. -/
theorem pollLoop_unexpected {α : Type} (rs : Nat → PollResp α) :
    ∀ (k i fuel : Nat), k < fuel →
      (∀ j, j < k → (rs (i + j)).status = 202) →
      ¬((rs (i + k)).status = 200) → ¬((rs (i + k)).status = 202) →
      pollLoop rs i fuel
        = (.error ("Unexpected status: " ++ toString (rs (i + k)).status
            ++ ", " ++ (rs (i + k)).text), k + 1, 5 * k) := by
  intro k
  induction k with
  | zero =>
    intro i fuel hk hpre hn200 hn202
    cases fuel with
    | zero => omega
    | succ fuel =>
      rw [Nat.add_zero] at hn200 hn202
      rw [show i + 0 = i by omega]
      simp [pollLoop, hn200, hn202]
  | succ k ih =>
    intro i fuel hk hpre hn200 hn202
    cases fuel with
    | zero => omega
    | succ fuel =>
      have h202 : (rs i).status = 202 := by
        have := hpre 0 (by omega)
        rwa [Nat.add_zero] at this
      have hne : ¬((rs i).status = 200) := by rw [h202]; decide
      have hpre2 : ∀ j, j < k → (rs (i + 1 + j)).status = 202 := by
        intro j hj
        have := hpre (j + 1) (by omega)
        have hidx : i + (j + 1) = i + 1 + j := by omega
        rwa [hidx] at this
      have hidx : i + (k + 1) = i + 1 + k := by omega
      rw [hidx] at hn200 hn202
      have hrec := ih (i + 1) fuel (by omega) hpre2 hn200 hn202
      rw [show i + 1 + k = i + (k + 1) by omega] at hrec
      rw [hidx]
      simp [pollLoop, hne, h202, hrec]
      constructor
      · rw [show i + (k + 1) = i + 1 + k by omega]
      · omega

/-- If every response in the budget is 202, the loop exhausts its
`fuel` attempts (sleeping 5 seconds after each) and raises the
timeout. -/
theorem pollLoop_timeout {α : Type} (rs : Nat → PollResp α) :
    ∀ (fuel i : Nat), (∀ j, j < fuel → (rs (i + j)).status = 202) →
      pollLoop rs i fuel
        = (.error "Report generation timed out.", fuel, 5 * fuel) := by
  intro fuel
  induction fuel with
  | zero => intro i h; simp [pollLoop]
  | succ fuel ih =>
    intro i h
    have h202 : (rs i).status = 202 := by
      have := h 0 (by omega)
      rwa [Nat.add_zero] at this
    have hne : ¬((rs i).status = 200) := by rw [h202]; decide
    have hrec := ih (i + 1) (fun j hj => by
      have := h (j + 1) (by omega)
      have hidx : i + (j + 1) = i + 1 + j := by omega
      rwa [hidx] at this)
    simp [pollLoop, hne, h202, hrec]
    omega

/-- C3: behavior of `poll_report_status` on every response sequence.
(1) If the responses before index `k < 30` are all 202 and response `k`
is 200, polling returns that response's payload (the first 200) after
`k + 1` attempts.  (2) If response `k` is the first that is neither 200
nor 202, polling fails immediately there with the `Unexpected status`
error and returns no data.  (3) If the first 30 responses are all 202,
polling makes exactly 30 attempts (5 seconds apart) and fails with the
poll timeout, returning no data. -/
theorem valuation_poll_behavior {α : Type} (rs : Nat → PollResp α) :
    (∀ k, k < 30 → (∀ j, j < k → (rs j).status = 202) →
      (rs k).status = 200 →
      poll_report_status rs = (.ok (rs k).body, k + 1, 5 * k)) ∧
    (∀ k, k < 30 → (∀ j, j < k → (rs j).status = 202) →
      ¬((rs k).status = 200) → ¬((rs k).status = 202) →
      poll_report_status rs
        = (.error ("Unexpected status: " ++ toString (rs k).status
            ++ ", " ++ (rs k).text), k + 1, 5 * k)) ∧
    ((∀ j, j < 30 → (rs j).status = 202) →
      poll_report_status rs
        = (.error "Report generation timed out.", 30, 150)) := by
  refine ⟨?_, ?_, ?_⟩
  · intro k hk hpre h200
    have := pollLoop_success rs k 0 30 hk
      (fun j hj => by rw [Nat.zero_add]; exact hpre j hj)
      (by rw [Nat.zero_add]; exact h200)
    rw [Nat.zero_add] at this
    exact this
  · intro k hk hpre hn200 hn202
    have := pollLoop_unexpected rs k 0 30 hk
      (fun j hj => by rw [Nat.zero_add]; exact hpre j hj)
      (by rw [Nat.zero_add]; exact hn200)
      (by rw [Nat.zero_add]; exact hn202)
    rw [Nat.zero_add] at this
    exact this
  · intro hall
    have := pollLoop_timeout rs 30 0
      (fun j hj => by rw [Nat.zero_add]; exact hall j hj)
    exact this

/-- Concrete poll sequence for the C3 witness: 202, 202, then 200 with
payload `Items = [5]`. -/
def pollSeq : Nat → PollResp Nat :=
  fun i => if i < 2 then ⟨202, "", ⟨none, none⟩⟩ else ⟨200, "", ⟨none, some [5]⟩⟩

/-- C3 (witness): on `pollSeq`, polling returns the first 200 payload
after 3 attempts and 10 seconds slept. -/
theorem valuation_poll_behavior_witness :
    poll_report_status pollSeq = (.ok ⟨none, some [5]⟩, 3, 10) :=
  (valuation_poll_behavior pollSeq).1 2 (by omega)
    (fun j hj => by interval_cases j <;> rfl) rfl

/-- Valuation world for the C5 counterexample: everything succeeds but
the (inline) report payload has an empty `Items` list. -/
def valuationEmptyWorld : VWorld Nat :=
  ⟨200, 200, "", ⟨none, some []⟩, fun _ => ⟨200, "", ⟨none, none⟩⟩, 4⟩

/-- C5 (counterexample): the valuation exporter `export_to_excel`,
given the empty sequence of records, writes NO file at all and returns
`(None, 0)` — not a one-row marker file — and the valuation pipeline
consequently reports failure ("Report file was not created or contains
no data").  This refutes the claim for "the exporter" in general. -/
theorem export_empty_counterexample :
    export_to_excel 4 (⟨none, some []⟩ : VJson Nat) = (none, none, 0) ∧
    (generate_valuation_report valuationEmptyWorld).written = none ∧
    (generate_valuation_report valuationEmptyWorld).result.success = false ∧
    (generate_valuation_report valuationEmptyWorld).result.error
      = some "Report file was not created or contains no data" := by
  refine ⟨rfl, rfl, rfl, rfl⟩

/-- C5 (amended): given an empty sequence of records, the payment
exporter does write a one-row file with a populated `RunDate` and the
`"No data found"` marker; the valuation exporter instead writes no file
and returns no path and a count of 0. -/
theorem export_empty_behavior {α : Type} (now : Nat) (data : VJson α)
    (h : data.items = none ∨ data.items = some []) :
    paymentExport now ([] : List α) = [⟨now, none, some "No data found"⟩] ∧
    export_to_excel now data = (none, none, 0) := by
  constructor
  · rfl
  · rcases h with h | h <;> simp [export_to_excel, h]

/-- C5 (witness): instance of the amended theorem at `now = 7` and an
empty `Items` list. -/
theorem export_empty_behavior_witness :
    paymentExport 7 ([] : List Nat) = [⟨7, none, some "No data found"⟩] ∧
    export_to_excel 7 (⟨none, some []⟩ : VJson Nat) = (none, none, 0) :=
  export_empty_behavior 7 ⟨none, some []⟩ (Or.inr rfl)

/-- C9: every exception raised inside a pipeline's `try:` body (the
`.error` outcome of the modelled body) is caught at the pipeline
boundary and converted into a result with `success = false` and the
exception's message as `error`; the pipeline functions are total, so
nothing propagates to the caller. -/
theorem pipeline_boundary_error_conversion {α : Type}
    (dw : DWorld) (pw : PWorld α) (vw : VWorld α) (e1 e2 e3 : String)
    (hd : (debtAttempt dw).1 = .error e1)
    (hp : (paymentAttempt pw).1 = .error e2)
    (hv : (valuationAttempt vw).1 = .error e3) :
    (generate_debt_report dw).result = ⟨false, some e1, none, none⟩ ∧
    (generate_payment_report pw).result = ⟨false, some e2, none, none⟩ ∧
    (generate_valuation_report vw).result = ⟨false, some e3, none, none⟩ := by
  refine ⟨?_, ?_, ?_⟩
  · cases hda : debtAttempt dw with
    | mk fst snd =>
      rw [hda] at hd
      simp at hd
      obtain ⟨att, slp⟩ := snd
      subst hd
      simp [generate_debt_report, hda]
  · cases hpa : paymentAttempt pw with
    | mk fst snd =>
      rw [hpa] at hp
      simp at hp
      subst hp
      simp [generate_payment_report, hpa]
  · cases hva : valuationAttempt vw with
    | mk fst snd =>
      rw [hva] at hv
      simp at hv
      obtain ⟨att, slp⟩ := snd
      subst hv
      simp [generate_valuation_report, hva]

/-- Debt world whose single 200 response fails to parse as XML. -/
def debtParseErrWorld : DWorld :=
  ⟨200, some "J-2", fun _ => ⟨200, .error "bad xml"⟩, 0⟩

/-- Payment world whose initial report response fails to parse as
JSON. -/
def paymentParseErrWorld : PWorld Nat :=
  ⟨200, 200, .error "bad json", fun _ => ⟨200, none⟩, 0⟩

/-- Valuation world whose transactions GET answers 500, making
`get_transaction_report` raise. -/
def valuationRaiseWorld : VWorld Nat :=
  ⟨200, 500, "boom", ⟨none, none⟩, fun _ => ⟨202, "", ⟨none, none⟩⟩, 0⟩

/-- C9 (witness): each pipeline converts its concrete raised exception
into `success = false` with that message. -/
theorem pipeline_boundary_error_conversion_witness :
    (generate_debt_report debtParseErrWorld).result
      = ⟨false, some "bad xml", none, none⟩ ∧
    (generate_payment_report paymentParseErrWorld).result
      = ⟨false, some "bad json", none, none⟩ ∧
    (generate_valuation_report valuationRaiseWorld).result
      = ⟨false, some "Failed to start report job. Status 500: boom",
          none, none⟩ :=
  pipeline_boundary_error_conversion debtParseErrWorld paymentParseErrWorld
    valuationRaiseWorld "bad xml" "bad json"
    "Failed to start report job. Status 500: boom" rfl rfl rfl
